import Mathlib

/-!
Verification of the SMS-driven personal CRM conversation core.

A shallow embedding, in Lean 4, of the conversation core of the `crm2`
repository: the contact-collection state machine (`src/agents/text_parser.py`,
`src/main.py`), the interaction-logging handler
(`src/agents/interactions_agent.py`), the contact-change handler
(`src/agents/contacts_change_agent.py`) and the interaction-query handler
(`src/agents/interaction_query.py`).

Modelling conventions:
* Python `None` / a missing dict key is `Option.none`; Python truthiness of a
  string value (`if value:`) is `pyTruthy` (`none` and `some ""` are falsy).
* The language-model oracle is an external collaborator; each oracle response
  consumed during a turn is an explicit input of the embedded function.
* Store writes (and the interaction-table read, which one claim is about) are
  recorded in an explicit `Effect` list.  Contact-table reads and
  classification-example reads are not tracked; no property here concerns them.
* Python string methods (`lower`, `upper`, `strip`, `replace`, `startswith`,
  `in`) are re-implemented over `List Char` with ASCII semantics
  (`pyLower`, `pyUpper`, `pyStrip`, `removeFix`, `pyStartsWith`,
  `containsSub`), so every embedded function evaluates by kernel reduction.
-/

namespace Crm

/-! Section: Python-style string primitives. -/

/-- Python `str.lower()` (ASCII). -/
def pyLower (s : String) : String := String.mk (s.toList.map Char.toLower)

/-- Python `str.upper()` (ASCII). -/
def pyUpper (s : String) : String := String.mk (s.toList.map Char.toUpper)

/-- Drop leading and trailing whitespace from a character list. -/
def stripChars (l : List Char) : List Char :=
  ((l.dropWhile Char.isWhitespace).reverse.dropWhile Char.isWhitespace).reverse

/-- Python `str.strip()`. -/
def pyStrip (s : String) : String := String.mk (stripChars s.toList)

/-- Python `prefix in s` / `s.startswith(prefix)` helper: list prefix test. -/
def pyStartsWith (pre s : String) : Bool := pre.toList.isPrefixOf s.toList

/-- Does `needle` occur as a contiguous substring of `hay`
(Python `needle in hay`)? -/
def containsSub (needle : List Char) : List Char → Bool
  | [] => needle.isEmpty
  | c :: t => needle.isPrefixOf (c :: t) || containsSub needle t

/-- Python `s.replace("FIX:", "")`: delete every occurrence of `FIX:`,
scanning left to right (specialised to the one literal the source uses,
`main.py` line 128). -/
def removeFix : List Char → List Char
  | 'F' :: 'I' :: 'X' :: ':' :: t => removeFix t
  | c :: t => c :: removeFix t
  | [] => []

/-- A word character for the `\b` regex boundary (`[A-Za-z0-9_]`; the
messages this model is evaluated on are ASCII). -/
def isWordChar (c : Char) : Bool := c.isAlphanum || c == '_'

/-- Match `needle` literally at the head of `hay`, returning the remainder. -/
def matchHere (needle hay : List Char) : Option (List Char) :=
  match needle, hay with
  | [], h => some h
  | _ :: _, [] => none
  | n :: ns, h :: hs => if n = h then matchHere ns hs else none

/-- Does `needle` match at the current position with a word boundary
immediately after it? -/
def boundaryAfter (needle hay : List Char) : Bool :=
  match matchHere needle hay with
  | none => false
  | some [] => true
  | some (c :: _) => !isWordChar c

/-- Scan `hay` for an occurrence of `needle` that is preceded (argument
`prev` is the character before the current position) and followed by a word
boundary: `re.search(r"\b<needle>\b", hay)`. -/
def boundaryScan (needle : List Char) (prev : Option Char) : List Char → Bool
  | [] =>
    (match prev with | none => true | some c => !isWordChar c) && boundaryAfter needle []
  | c :: t =>
    ((match prev with | none => true | some c' => !isWordChar c') && boundaryAfter needle (c :: t))
      || boundaryScan needle (some c) t

/-! Section: contact records and the first-write-wins merge
(`src/agents/text_parser.py`). -/

/-- The six required contact fields (`text_parser.py` lines 152-159). -/
inductive Field
  | name | phone | email | birthday | family_members | description
deriving DecidableEq, Repr

/-- A (partial) contact record: the Python dict with the six expected keys.
`none` stands both for a missing key and for an explicit `None` value —
`contact_record.get(key)` treats the two identically, and every key the flow
ever stores holds a truthy value (the merge loop at `text_parser.py` lines
148-150 only writes truthy values). -/
structure ContactRecord where
  name : Option String
  phone : Option String
  email : Option String
  birthday : Option String
  family_members : Option String
  description : Option String
deriving DecidableEq, Repr

/-- Python truthiness of an optional string field value. -/
def pyTruthy : Option String → Bool
  | none => false
  | some s => s ≠ ""

/-- Field projection of a contact record. -/
def ContactRecord.get (r : ContactRecord) : Field → Option String
  | .name => r.name
  | .phone => r.phone
  | .email => r.email
  | .birthday => r.birthday
  | .family_members => r.family_members
  | .description => r.description

/-- The record with no fields (`{}`). -/
def emptyRecord : ContactRecord := ⟨none, none, none, none, none, none⟩

/-- One step of the merge loop (`text_parser.py` lines 148-150):
`if value and not contact_record.get(key): contact_record[key] = value`. -/
def mergeField (old new : Option String) : Option String :=
  if pyTruthy new && !pyTruthy old then new else old

/-- Merge a fresh extraction into an existing record, field by field,
without overwriting already-truthy fields (`text_parser.py` lines 146-150). -/
def mergeRecord (existing newData : ContactRecord) : ContactRecord where
  name := mergeField existing.name newData.name
  phone := mergeField existing.phone newData.phone
  email := mergeField existing.email newData.email
  birthday := mergeField existing.birthday newData.birthday
  family_members := mergeField existing.family_members newData.family_members
  description := mergeField existing.description newData.description

/-- Python truthiness of the record as a dict (`if existing_data:`): does it
hold at least one key?  (Reachable records only hold truthy values, see
`ContactRecord`, so holding a key and holding a truthy value coincide.) -/
def dictNonEmpty (r : ContactRecord) : Bool :=
  r.name.isSome || r.phone.isSome || r.email.isSome || r.birthday.isSome ||
    r.family_members.isSome || r.description.isSome

/-- The user-facing label of each required field (`text_parser.py`
lines 152-159). -/
def fieldLabel : Field → String
  | .name => "Full name"
  | .phone => "Phone number"
  | .email => "Email address"
  | .birthday => "Birthday (YYYY-MM-DD)"
  | .family_members => "Family members"
  | .description => "Description"

/-- The required fields in the dict's insertion order. -/
def requiredFields : List Field :=
  [.name, .phone, .email, .birthday, .family_members, .description]

/-- Labels of the required fields the record is still missing
(`text_parser.py` line 174: `if not contact_record.get(field)`). -/
def missingLabels (r : ContactRecord) : List String :=
  (requiredFields.filter (fun f => !pyTruthy (r.get f))).map fieldLabel

/-- All six required fields are truthy in the record. -/
def requiredPresent (r : ContactRecord) : Bool :=
  requiredFields.all (fun f => pyTruthy (r.get f))

/-! Section: phone normalization (`src/agents/text_parser.py` lines 29-44). -/

/-- Python `re.sub` with pattern `\D`: keep only the digits of the input. -/
def digitsOf (phone : String) : List Char := phone.toList.filter Char.isDigit

/-- Embeds `format_phone_number` from `text_parser.py` lines 29-44:
empty input → `None`; 10 digits → `"+1" + digits`; 11 digits starting with
`'1'` → `"+" + digits`; more than 11 digits → `"+" + digits`; anything else →
`None`.  Note the digit extraction discards a leading `+` as well. -/
def format_phone_number (phone : String) : Option String :=
  if phone = "" then none
  else
    let digits := digitsOf phone
    if digits.length = 10 then some ("+1" ++ String.mk digits)
    else if digits.length = 11 && digits.head? = some '1' then some ("+" ++ String.mk digits)
    else if digits.length > 11 then some ("+" ++ String.mk digits)
    else none

/-- The phone rule in the specification's words (spec §4.2 / §8, claim C3),
for the refinement comparison with `format_phone_number`: strip everything
but digits and a leading plus; a `+` input is returned in stripped form;
10 digits get the default country code; more than 10 digits get a bare `+`;
anything else is absent. -/
def spec_phone_normalize (phone : String) : Option String :=
  let digits := digitsOf phone
  if pyStartsWith "+" phone then some ("+" ++ String.mk digits)
  else if digits.length = 10 then some ("+1" ++ String.mk digits)
  else if digits.length > 10 then some ("+" ++ String.mk digits)
  else none

/-! Section: date normalization (`src/agents/text_parser.py` lines 110-116).

`dateutil.parser.parse` is an external library; the embedding takes the
parser as a parameter `parseDate` returning `some (y, m, d)` on success and
`none` where the library raises. -/

/-- The decimal digits of `n`, most significant first (`fuel` bounds the
recursion; `n + 1` always suffices). -/
def natToChars (fuel n : Nat) : List Char :=
  match fuel with
  | 0 => []
  | f + 1 =>
    if n < 10 then [Char.ofNat ('0'.toNat + n)]
    else natToChars f (n / 10) ++ [Char.ofNat ('0'.toNat + n % 10)]

/-- Zero-pad a numeral to width `w`. -/
def padNum (w n : Nat) : String :=
  let s := natToChars (n + 1) n
  String.mk (List.replicate (w - s.length) '0' ++ s)

/-- Python `dt.strftime` with format `%Y-%m-%d`. -/
def isoFormat (d : Nat × Nat × Nat) : String :=
  padNum 4 d.1 ++ "-" ++ padNum 2 d.2.1 ++ "-" ++ padNum 2 d.2.2

/-- The birthday step of `prepare_contact_for_supabase` (`text_parser.py`
lines 110-116): a falsy value is left alone; otherwise the raw text is parsed
and reformatted to ISO on success, while on failure the exception is caught,
logged, and **the raw value is left in the record**. -/
def normalizeBirthdayField (parseDate : String → Option (Nat × Nat × Nat)) :
    Option String → Option String
  | none => none
  | some s =>
    if s = "" then some s
    else
      match parseDate s with
      | some d => some (isoFormat d)
      | none => some s

/-- The phone step of `prepare_contact_for_supabase` (`text_parser.py`
lines 107-108): a truthy phone is replaced by `format_phone_number` (which
may yield `None`); a falsy one is left alone. -/
def normalizePhoneField : Option String → Option String
  | none => none
  | some s => if s = "" then some s else format_phone_number s

/-- Embeds `prepare_contact_for_supabase` (`text_parser.py` lines 87-126) given the
oracle's parse result (`none` models `parse_contact_message` returning `{}`):
normalize phone and birthday, ensure all six keys exist. -/
def prepare_contact_for_supabase (parseDate : String → Option (Nat × Nat × Nat))
    (gptResult : Option ContactRecord) : Option ContactRecord :=
  match gptResult with
  | none => none
  | some p =>
      some { p with
              phone := normalizePhoneField p.phone
              birthday := normalizeBirthdayField parseDate p.birthday }

/-- Split a character list on a separator (Python `str.split(sep)`). -/
def splitChar (sep : Char) : List Char → List (List Char)
  | [] => [[]]
  | c :: t =>
    if c = sep then [] :: splitChar sep t
    else
      match splitChar sep t with
      | [] => [[c]]
      | h :: r => (c :: h) :: r

/-- Numeric value of a digit list (most significant first). -/
def natOfDigits (l : List Char) : Nat :=
  l.foldl (fun acc c => acc * 10 + (c.toNat - '0'.toNat)) 0

/-- A strict `YYYY-MM-DD` parser, used to instantiate `parseDate` at concrete
inputs (`dateutil` parses far more shapes; any input this rejects that is
also not a date at all, e.g. `"not-a-real-date"`, is rejected by `dateutil`
too, which is all the concrete theorems below rely on). -/
def parseDateYMD (s : String) : Option (Nat × Nat × Nat) :=
  match splitChar '-' s.toList with
  | [y, m, d] =>
    if y.length = 4 && m.length = 2 && d.length = 2 &&
        (y ++ m ++ d).all Char.isDigit &&
        1 ≤ natOfDigits m && natOfDigits m ≤ 12 &&
        1 ≤ natOfDigits d && natOfDigits d ≤ 31 then
      some (natOfDigits y, natOfDigits m, natOfDigits d)
    else none
  | _ => none

/-! Section: store rows and tracked effects. -/

/-- A row of the `contacts` table (only the columns the handlers read). -/
structure Contact where
  uuid : String
  name : String
deriving DecidableEq, Repr

/-- A row returned by the `interactions` select
(`interaction_query.py` line 35: `note, created_at, contact_id`). -/
structure InteractionRow where
  note : String
  created_at : String
  contact_id : String
deriving DecidableEq, Repr

/-- An interaction row after the contact-name enrichment
(`interaction_query.py` lines 76-78). -/
structure EnrichedRow where
  note : String
  created_at : String
  contact_id : String
  contact_name : String
deriving DecidableEq, Repr

/-- Store calls a turn can issue.  All writes are tracked, plus the
execution of a select on the `interactions` table (claim C9 is about it).
Reads of the `contacts` and `classification_outcomes` tables are not
tracked. -/
inductive Effect
  | insertContact (data : ContactRecord)
  | insertInteraction (contact_id : String) (note : String)
  | updateContact (uuid : String) (fields : ContactRecord)
  | deleteContact (uuid : String)
  | storeClassification (message original_label correct_label : String)
  | queryInteractions (contactIds : Option (List String))
      (dateRange : Option (String × String)) (lim : Option Nat) (sortDesc : Bool)
deriving DecidableEq, Repr

/-- Is the effect a write (insert, update or delete)? -/
def Effect.isMutation : Effect → Bool
  | .queryInteractions _ _ _ _ => false
  | _ => true

/-- The outcome of a Supabase insert as the callers test it:
a data row (`ok`), an empty dict (`empty`, falsy), or `{"error": e}`. -/
inductive InsertOutcome
  | ok
  | empty
  | err (e : String)
deriving DecidableEq, Repr

/-- The replies a turn can produce, as tagged data (the embedding keeps the
data each fixed message template interpolates, not the final string). -/
inductive Reply
  | missingInfo (labels : List String)
  | confirmContact (record : ContactRecord)
  | contactSaved
  | contactSaveError (e : String)
  | contactCancelled
  | noPrevClassification
  | unknownFixType
  | noNameDetected
  | interactionSaved (contactName : String)
  | interactionSaveError (e : String)
  | multipleContacts (names : List String)
  | noMatchingContact
  | cannotInterpret
  | noContactsFound (name : String)
  | querySummary (rows : List EnrichedRow)
  | queryError
  | notSureAction
  | noDeleteName
  | noContactsMatchDelete (name : String)
  | multipleMatchesDelete (name : String) (names : List String)
  | deletedOk (name : String)
  | noAddName
  | addedOk (name : String)
  | noUpdateName
  | noContactsMatchUpdate (name : String)
  | multipleMatchesUpdate (name : String) (names : List String)
  | updatedOk (name : String)
deriving DecidableEq, Repr

/-- Postgrest `ilike` on `%frag%`: case-insensitive substring match of the
fragment against stored names (`interactions_agent.py` line 53,
`contacts_change_agent.py` lines 32/64, `interaction_query.py` line 41). -/
def fuzzy_search_contacts (store : List Contact) (frag : String) : List Contact :=
  store.filter (fun c => containsSub (pyLower frag).toList (pyLower c.name).toList)

/-! Section: the interaction-logging handler
(`src/agents/interactions_agent.py` lines 59-95). -/

/-- Embeds `handle_interaction_message`: `extractedName` is the oracle's
`parse_interaction_name` result (`""` when no name was found or the call
failed); `ins` is the store's response to the insert, consumed only if the
insert is issued.  Exactly one match inserts an interaction whose note is the
whole message; several matches enumerate the names; zero matches report a
user-facing failure. -/
def handle_interaction_message (message : String) (extractedName : String)
    (store : List Contact) (ins : InsertOutcome) : Reply × List Effect :=
  if extractedName = "" then (Reply.noNameDetected, [])
  else
    let found := fuzzy_search_contacts store extractedName
    match found with
    | [c] =>
      (match ins with
       | .err e => Reply.interactionSaveError e
       | _ => Reply.interactionSaved c.name,
       [Effect.insertInteraction c.uuid message])
    | [] => (Reply.noMatchingContact, [])
    | _ => (Reply.multipleContacts (found.map (fun c => c.name)), [])

/-! Section: the contact-change handler
(`src/agents/contacts_change_agent.py` lines 10-76). -/

/-- The oracle's `parse_contact_info` output: the seven string fields, each
defaulting to `""` (a failed call yields `{}`, whose `.get(k, "")` is `""`
for every key — the all-empty value of this structure). -/
structure ChangeData where
  action : String
  name : String
  phone : String
  email : String
  birthday : String
  family_members : String
  description : String
deriving DecidableEq, Repr

/-- The record assembled at `contacts_change_agent.py` lines 45-49: each of
the six fields is kept (stripped) iff its stripped value is truthy. -/
def changeRecord (d : ChangeData) : ContactRecord :=
  let keep (s : String) : Option String :=
    if pyStrip s = "" then none else some (pyStrip s)
  { name := keep d.name, phone := keep d.phone, email := keep d.email,
    birthday := keep d.birthday, family_members := keep d.family_members,
    description := keep d.description }

/-- Embeds `handle_contacts_change`: dispatch on the parsed action; `delete` and
`update` resolve the name fragment by fuzzy match and refuse to act on zero
or multiple matches; `add` inserts directly. -/
def handle_contacts_change (d : ChangeData) (store : List Contact) :
    Reply × List Effect :=
  let action := pyLower d.action
  if action ≠ "add" && action ≠ "update" && action ≠ "delete" then
    (Reply.notSureAction, [])
  else if action = "delete" then
    let nm := pyStrip d.name
    if nm = "" then (Reply.noDeleteName, [])
    else
      match fuzzy_search_contacts store nm with
      | [] => (Reply.noContactsMatchDelete nm, [])
      | [c] => (Reply.deletedOk c.name, [Effect.deleteContact c.uuid])
      | cs => (Reply.multipleMatchesDelete nm (cs.map (fun c => c.name)), [])
  else
    let record := changeRecord d
    if action = "add" then
      match record.name with
      | none => (Reply.noAddName, [])
      | some nm => (Reply.addedOk nm, [Effect.insertContact record])
    else
      let nm := pyStrip d.name
      if nm = "" then (Reply.noUpdateName, [])
      else
        match fuzzy_search_contacts store nm with
        | [] => (Reply.noContactsMatchUpdate nm, [])
        | [c] => (Reply.updatedOk c.name, [Effect.updateContact c.uuid record])
        | cs => (Reply.multipleMatchesUpdate nm (cs.map (fun c => c.name)), [])

/-! Section: the interaction-query handler
(`src/agents/interaction_query.py` lines 14-85). -/

/-- The plan `parse_nl_query` returns, with every key present
(`query_request_generator.py` lines 72-74). -/
structure QueryPlan where
  contact_name : Option String
  start_date : Option String
  end_date : Option String
  limit : Option Nat
  sort : Option String
deriving DecidableEq, Repr

/-- Builds and runs the interactions query (`interaction_query.py` lines
49-78): optional inclusive date range, optional limit (`0` is falsy and
ignored), sort direction, then enrichment of each returned row with its
contact's name (`"Unknown"` when the id resolves to no stored contact).
`rows` is the store's response to the executed select. -/
def runInteractionsQuery (plan : QueryPlan) (contactIds : Option (List String))
    (store : List Contact) (rows : List InteractionRow) : Reply × List Effect :=
  let dateRange :=
    if pyTruthy plan.start_date && pyTruthy plan.end_date then
      some (plan.start_date.getD "", plan.end_date.getD "")
    else none
  let lim := match plan.limit with
    | some n => if n ≠ 0 then some n else none
    | none => none
  let sortDesc := plan.sort = some "desc"
  let enriched := rows.map (fun r =>
    { note := r.note, created_at := r.created_at, contact_id := r.contact_id,
      contact_name :=
        ((store.find? (fun c => c.uuid = r.contact_id)).map (fun c => c.name)).getD
          "Unknown" : EnrichedRow })
  (Reply.querySummary enriched,
   [Effect.queryInteractions contactIds dateRange lim sortDesc])

/-- Embeds `handle_interaction_query`: `plan?` is the oracle's plan (`none` models
the falsy-plan guard at line 22).  A truthy contact name is resolved by fuzzy
match first; zero candidates abort the whole query with a "no contacts
found" reply before any interactions select is executed. -/
def handle_interaction_query (plan? : Option QueryPlan)
    (store : List Contact) (rows : List InteractionRow) : Reply × List Effect :=
  match plan? with
  | none => (Reply.cannotInterpret, [])
  | some plan =>
    if pyTruthy plan.contact_name then
      let nm := plan.contact_name.getD ""
      let cids := (fuzzy_search_contacts store nm).map (fun c => c.uuid)
      if cids.isEmpty then (Reply.noContactsFound nm, [])
      else runInteractionsQuery plan (some cids) store rows
    else runInteractionsQuery plan none store rows

/-! Section: the contact-collection state machine
(`src/agents/text_parser.py` lines 129-193, `src/main.py` lines 221-258). -/

/-- The status `parse_message` returns. -/
inductive ParseStatus
  | missing_fields
  | needs_confirmation
deriving DecidableEq, Repr

/-- The dict `parse_message` returns: reply, status and merged record. -/
structure ParseResult where
  reply : Reply
  status : ParseStatus
  contact_data : ContactRecord
deriving DecidableEq, Repr

/-- Embeds `parse_message` (`text_parser.py` lines 129-193).  `newData` is
`prepare_contact_for_supabase(message)` — the oracle extraction after
normalization, `none` for the failure dict `{}`.  The merged record never
overwrites truthy fields.  A follow-up turn (truthy `existing`) always asks
for confirmation without re-checking completeness; a first turn lists the
missing required fields, or asks for confirmation when none are missing. -/
def parse_message (newData : Option ContactRecord) (existing : ContactRecord) :
    ParseResult :=
  let record := match newData with
    | some nd => mergeRecord existing nd
    | none => existing
  if dictNonEmpty existing then
    ⟨Reply.confirmContact record, .needs_confirmation, record⟩
  else
    let missing := missingLabels record
    if missing ≠ [] then ⟨Reply.missingInfo missing, .missing_fields, record⟩
    else ⟨Reply.confirmContact record, .needs_confirmation, record⟩

/-- The per-sender conversation phase stored in `contact_storage`
(`main.py` lines 148-151, 236-239). -/
inductive ConvPhase
  | awaiting_fields
  | awaiting_confirmation
deriving DecidableEq, Repr

/-- One entry of `contact_storage`: the dict holding `contact_data` and `state`. -/
structure StateEntry where
  phase : ConvPhase
  contact_data : ContactRecord
deriving DecidableEq, Repr

/-- Run `parse_message` and store the result with the derived phase
(`main.py` lines 234-245 / 247-258). -/
def followUpTurn (newData : Option ContactRecord) (existing : ContactRecord) :
    Reply × Option StateEntry :=
  let pr := parse_message newData existing
  let ph := if pr.status = ParseStatus.needs_confirmation then
    ConvPhase.awaiting_confirmation else ConvPhase.awaiting_fields
  (pr.reply, some ⟨ph, pr.contact_data⟩)

/-- The contact branch of `receive_sms` (`main.py` lines 221-258): given the
(stripped) message, the oracle extraction, the sender's stored entry and the
store's insert outcome, produce the reply, the new stored entry and the
issued effects.  From `awaiting_confirmation`, `yes`/`y` commits the pending
record and removes the state, `no`/`n` discards it, and anything else is
treated as supplementary field data; otherwise the turn runs
`parse_message` over the existing partial record. -/
def contactTurn (message : String) (newData : Option ContactRecord)
    (entry : Option StateEntry) (ins : InsertOutcome) :
    Reply × Option StateEntry × List Effect :=
  match entry with
  | some e =>
    if e.phase = ConvPhase.awaiting_confirmation then
      if pyLower message = "yes" || pyLower message = "y" then
        (match ins with
         | .ok => Reply.contactSaved
         | .empty => Reply.contactSaveError "unknown error"
         | .err m => Reply.contactSaveError m,
         none, [Effect.insertContact e.contact_data])
      else if pyLower message = "no" || pyLower message = "n" then
        (Reply.contactCancelled, none, [])
      else
        let (r, st) := followUpTurn newData e.contact_data
        (r, st, [])
    else
      let (r, st) := followUpTurn newData e.contact_data
      (r, st, [])
  | none =>
    let (r, st) := followUpTurn newData emptyRecord
    (r, st, [])

/-! Section: classification and routing (`src/main.py` lines 51-258). -/

/-- Embeds `classify_for_query` (`main.py` lines 63-95).  `main.py` never imports
`json`, so the `json.loads(raw)` call at line 88 raises `NameError`; the
bare inner `except` swallows it, `data` stays `{}`, the label defaults to
`"noquery"`, and the function returns `False` for every message and every
oracle response (an API failure returns `False` through the outer except as
well).  The raw oracle text is therefore dead. -/
def classify_for_query (_oracleRaw : String) : Bool :=
  let data : List (String × String) := []
  let label := ((data.lookup "label").getD "noquery")
  pyLower label = "query"

/-- The strong interaction cues of `main.py` lines 179-188, checked as plain
substrings of the lowercased message. -/
def interactionPhrases : List String :=
  ["had a chat with", "call with", "spoke with", "spoke to", "met with",
   "had coffee with", "had lunch with", "had a call with"]

/-- Line 190 of `main.py`: `any(p in lower_msg for p in interaction_phrases)`. -/
def hasInteractionPhrase (message : String) : Bool :=
  interactionPhrases.any (fun p => containsSub p.toList (pyLower message).toList)

/-- The query-indicating patterns of `fallback_query_keywords`
(`main.py` lines 102-113), each `\b...\b` regex expanded into its literal
alternatives (`s?` gives two alternatives). -/
def queryPhrasePatterns : List (List String) :=
  [["what"], ["tell me"], ["show me"], ["who did i speak with"],
   ["discussions", "discussion"], ["who did i talk to"], ["who did i meet"],
   ["my last discussion", "my last interaction"],
   ["no results from queries", "no results from querie"]]

/-- Embeds `fallback_query_keywords` (`main.py` lines 97-117): does any
word-boundary-delimited query pattern occur in the lowercased message? -/
def fallback_query_keywords (message : String) : Bool :=
  let low := (pyLower message).toList
  queryPhrasePatterns.any (fun alts =>
    alts.any (fun n => boundaryScan n.toList none low))

/-- The override-detection string `fix_prefix`, Python `message.upper().strip()`
(`main.py` line 126). -/
def fixPrefixOf (message : String) : String := pyStrip (pyUpper message)

/-- The corrected label: `fix_prefix.replace("FIX:", "").strip().lower()`
(`main.py` line 128). -/
def fixLabelOf (message : String) : String :=
  pyLower (pyStrip (String.mk (removeFix (fixPrefixOf message).toList)))

/-- The remembered classification for a sender
(`classification_storage[sender]`, `main.py` lines 194-197 etc.). -/
structure ClassEntry where
  original_label : String
  original_message : String
deriving DecidableEq, Repr

/-- The per-sender process state `receive_sms` reads and writes:
`contact_storage[sender]` and `classification_storage[sender]`. -/
structure SmsState where
  contactState : Option StateEntry
  classState : Option ClassEntry
deriving DecidableEq, Repr

/-- The external inputs one turn consumes: the oracle responses for
whichever handler runs, the contact-store contents, the rows the
interactions select returns, and the insert outcomes. -/
structure TurnEnv where
  extraction : Option ContactRecord
  interactionName : String
  queryPlan : Option QueryPlan
  classifierRaw : String
  contacts : List Contact
  interactionRows : List InteractionRow
  contactInsert : InsertOutcome
  interactionInsert : InsertOutcome
deriving Repr

/-- Embeds `receive_sms` (`main.py` lines 119-258), the whole turn: strip the body;
handle a `FIX:` override (audit record first, then dispatch on the corrected
label, then clear the remembered classification); otherwise route by
interaction cues, then by the query classifier plus keyword fallback, and
finally fall through to the contact state machine, remembering the
classification for the sender in each branch. -/
def receiveSms (body : String) (st : SmsState) (env : TurnEnv) :
    Reply × SmsState × List Effect :=
  let message := pyStrip body
  if pyStartsWith "FIX:" (fixPrefixOf message) then
    match st.classState with
    | none => (Reply.noPrevClassification, st, [])
    | some cd =>
      let corrected := fixLabelOf message
      let audit := Effect.storeClassification cd.original_message
        cd.original_label corrected
      if corrected = "query" then
        let (r, effs) := handle_interaction_query env.queryPlan env.contacts
          env.interactionRows
        (r, ⟨st.contactState, none⟩, audit :: effs)
      else if corrected = "interaction" then
        let (r, effs) := handle_interaction_message cd.original_message
          env.interactionName env.contacts env.interactionInsert
        (r, ⟨st.contactState, none⟩, audit :: effs)
      else if corrected = "contact" then
        let pr := parse_message env.extraction emptyRecord
        let ph := if pr.status = ParseStatus.needs_confirmation then
          ConvPhase.awaiting_confirmation else ConvPhase.awaiting_fields
        (pr.reply, ⟨some ⟨ph, pr.contact_data⟩, none⟩, [audit])
      else (Reply.unknownFixType, ⟨st.contactState, none⟩, [audit])
  else
    if hasInteractionPhrase message then
      let (r, effs) := handle_interaction_message message env.interactionName
        env.contacts env.interactionInsert
      (r, ⟨st.contactState, some ⟨"interaction", message⟩⟩, effs)
    else
      let isQuery := classify_for_query env.classifierRaw
        || fallback_query_keywords message
      if isQuery then
        let (r, effs) := handle_interaction_query env.queryPlan env.contacts
          env.interactionRows
        (r, ⟨st.contactState, some ⟨"query", message⟩⟩, effs)
      else
        let (r, cst, effs) := contactTurn message env.extraction
          st.contactState env.contactInsert
        (r, ⟨cst, some ⟨"contact", message⟩⟩, effs)

/-! Section: shared lemmas. -/

/-- One merge step is idempotent. -/
lemma mergeField_idem (o n : Option String) :
    mergeField (mergeField o n) n = mergeField o n := by
  unfold mergeField
  by_cases hn : pyTruthy n <;> by_cases ho : pyTruthy o <;> simp [hn, ho]

/-- One merge step never overwrites a truthy value. -/
lemma mergeField_keep (o n : Option String) (h : pyTruthy o = true) :
    mergeField o n = o := by
  simp [mergeField, h]

/-- A projection of the merged record is the merge of the projections. -/
lemma get_mergeRecord (r e : ContactRecord) (f : Field) :
    (mergeRecord r e).get f = mergeField (r.get f) (e.get f) := by
  cases f <;> rfl

/-- The missing-label list is empty exactly when all six required fields
are truthy. -/
lemma missingLabels_eq_nil_iff (r : ContactRecord) :
    missingLabels r = [] ↔ requiredPresent r = true := by
  simp [missingLabels, requiredPresent, requiredFields]

/-! Claim C8 (`algebraic_relational`). -/

/-- C8: the merge of an extraction into a partial contact record is
first-write-wins — a field already holding a non-absent (truthy) value is
never overwritten by a later extraction — and idempotent: merging the same
extraction twice yields the same record as merging it once
(`text_parser.py` lines 141-150). -/
theorem merge_first_write_wins_and_idempotent (r e : ContactRecord) (f : Field) :
    mergeRecord (mergeRecord r e) e = mergeRecord r e ∧
    (pyTruthy (r.get f) = true → (mergeRecord r e).get f = r.get f) := by
  constructor
  · cases r; cases e
    simp only [mergeRecord, ContactRecord.mk.injEq]
    exact ⟨mergeField_idem _ _, mergeField_idem _ _, mergeField_idem _ _,
      mergeField_idem _ _, mergeField_idem _ _, mergeField_idem _ _⟩
  · intro h
    rw [get_mergeRecord, mergeField_keep _ _ h]

/-- Witness for C8 at a concrete record, extraction and field: a record that
already knows the name `Ann` is unchanged by an extraction claiming `Bob`,
and the double merge collapses. -/
theorem merge_first_write_wins_and_idempotent_witness :
    mergeRecord
        (mergeRecord (⟨some "Ann", none, none, none, none, none⟩ : ContactRecord)
          ⟨some "Bob", some "+15551234567", none, none, none, none⟩)
        ⟨some "Bob", some "+15551234567", none, none, none, none⟩ =
      mergeRecord (⟨some "Ann", none, none, none, none, none⟩ : ContactRecord)
        ⟨some "Bob", some "+15551234567", none, none, none, none⟩ ∧
    (mergeRecord (⟨some "Ann", none, none, none, none, none⟩ : ContactRecord)
        ⟨some "Bob", some "+15551234567", none, none, none, none⟩).get .name =
      (⟨some "Ann", none, none, none, none, none⟩ : ContactRecord).get .name :=
  ⟨(merge_first_write_wins_and_idempotent ⟨some "Ann", none, none, none, none, none⟩
      ⟨some "Bob", some "+15551234567", none, none, none, none⟩ .name).1,
   (merge_first_write_wins_and_idempotent ⟨some "Ann", none, none, none, none, none⟩
      ⟨some "Bob", some "+15551234567", none, none, none, none⟩ .name).2 (by decide)⟩

/-! Claim C3 (`functional_correctness`). -/

/-- Counterexample to C3: the code strips the plus sign with every other
non-digit, so an input already starting with `+` is *not* returned in
stripped form (a plus followed by 10 digits gets a second country code
digit), and an 11-digit number not starting with `1` yields absent rather
than a `+`-prefixed number as the spec's rule demands. -/
theorem format_phone_number_spec_counterexample :
    format_phone_number "+1234567890" = some "+11234567890" ∧
    spec_phone_normalize "+1234567890" = some "+1234567890" ∧
    format_phone_number "+1234567890" ≠ spec_phone_normalize "+1234567890" ∧
    format_phone_number "98765432109" = none ∧
    spec_phone_normalize "98765432109" = some "+98765432109" := by
  decide

/-- C3 as amended: after stripping every non-digit character (a leading plus
sign is stripped too, so it never receives special treatment): exactly 10
digits yield `+1` plus the digits; exactly 11 digits starting with `1` yield
`+` plus the digits; more than 11 digits yield `+` plus the digits; anything
else — the empty input, fewer than 10 digits, or 11 digits not starting with
`1` — yields absent (`text_parser.py` lines 29-44). -/
theorem format_phone_number_characterization (phone : String) :
    ((digitsOf phone).length < 10 → format_phone_number phone = none) ∧
    (phone ≠ "" → (digitsOf phone).length = 10 →
      format_phone_number phone = some ("+1" ++ String.mk (digitsOf phone))) ∧
    (phone ≠ "" → (digitsOf phone).length = 11 → (digitsOf phone).head? = some '1' →
      format_phone_number phone = some ("+" ++ String.mk (digitsOf phone))) ∧
    ((digitsOf phone).length = 11 → (digitsOf phone).head? ≠ some '1' →
      format_phone_number phone = none) ∧
    (phone ≠ "" → (digitsOf phone).length > 11 →
      format_phone_number phone = some ("+" ++ String.mk (digitsOf phone))) := by
  unfold format_phone_number
  by_cases h0 : phone = ""
  · refine ⟨fun _ => by simp [h0], fun h => absurd h0 h, fun h => absurd h0 h, ?_, fun h => absurd h0 h⟩
    intro hlen
    exfalso
    rw [h0] at hlen
    simp [digitsOf] at hlen
  · refine ⟨fun hlt => ?_, fun _ hlen => ?_, fun _ hlen hhd => ?_, fun hlen hhd => ?_, fun _ hlen => ?_⟩
    · simp only [h0, if_false]
      have h10 : ¬ (digitsOf phone).length = 10 := by omega
      have h11 : ¬ (digitsOf phone).length = 11 := by omega
      have hgt : ¬ (digitsOf phone).length > 11 := by omega
      simp [h10, h11, hgt]
    · simp [h0, hlen]
    · simp [h0, hlen, hhd]
    · have h10 : ¬ (digitsOf phone).length = 10 := by omega
      have hgt : ¬ (digitsOf phone).length > 11 := by omega
      simp [h0, h10, hlen, hhd, hgt]
    · have h10 : ¬ (digitsOf phone).length = 10 := by omega
      have h11 : ¬ (digitsOf phone).length = 11 := by omega
      simp [h0, h10, h11, hlen]

/-- Witness for the amended C3 at concrete inputs: a plain 10-digit US
number is prefixed with `+1`, and an 11-digit number starting with `1`
with a bare `+`. -/
theorem format_phone_number_characterization_witness :
    format_phone_number "555-123-4567" =
      some ("+1" ++ String.mk (digitsOf "555-123-4567")) ∧
    format_phone_number "1 (999) 555-1234" =
      some ("+" ++ String.mk (digitsOf "1 (999) 555-1234")) :=
  ⟨(format_phone_number_characterization "555-123-4567").2.1 (by decide) (by decide),
   (format_phone_number_characterization "1 (999) 555-1234").2.2.1 (by decide)
     (by decide) (by decide)⟩

/-! Claim C6 (`error_handling`). -/

/-- C6, evaluated at the failing input: birthday normalization indeed never
raises (the embedded function is total), and a parseable date is reformatted
to ISO, but an unparseable raw value is *retained verbatim* in the record —
`prepare_contact_for_supabase` catches the `dateutil` exception, logs it,
and leaves `parsed_data["birthday"]` as the raw non-ISO string
(`text_parser.py` lines 111-116), contradicting the function's own
docstring ("birthday: The birthday date (normalized to YYYY-MM-DD), or
None"). -/
theorem birthday_unparseable_retained :
    normalizeBirthdayField parseDateYMD (some "1990-04-02") = some "1990-04-02" ∧
    normalizeBirthdayField parseDateYMD (some "not-a-real-date") =
      some "not-a-real-date" ∧
    (prepare_contact_for_supabase parseDateYMD
        (some ⟨some "Ann", none, none, some "not-a-real-date", none, none⟩)).map
        (fun r => r.birthday) = some (some "not-a-real-date") := by
  decide

/-! Claim C5 (`functional_correctness`). -/

/-- Counterexample to C5: in the interaction-logging handler actually wired
into the SMS entry point (`main.py` line 14 imports
`handle_interaction_message` from `interactions_agent.py`), a message whose
extracted name matches zero stored contacts produces the user-facing
"No matching contact found" reply and issues *no* store call at all — no
minimal contact is auto-created and no interaction is inserted. -/
theorem interaction_no_match_counterexample :
    receiveSms "Spoke with Zed about the deal" ⟨none, none⟩
        ⟨none, "Zed", none, "", [], [], .ok, .ok⟩ =
      (Reply.noMatchingContact,
       ⟨none, some ⟨"interaction", "Spoke with Zed about the deal"⟩⟩, []) := by
  decide

/-- C5 as amended: in the interaction-logging path wired into the SMS entry
point, a message whose extracted name matches zero stored contacts is
answered with the "no matching contact found" failure and no store call is
issued; the auto-create-on-no-match behaviour exists only in the unwired
variant handler `handle_interaction` of `interaction_agent.py`
(`interactions_agent.py` lines 91-95). -/
theorem interaction_no_match_reports_failure (body : String) (st : SmsState)
    (env : TurnEnv)
    (hfix : pyStartsWith "FIX:" (fixPrefixOf (pyStrip body)) = false)
    (hphrase : hasInteractionPhrase (pyStrip body) = true)
    (hname : env.interactionName ≠ "")
    (hmatch : fuzzy_search_contacts env.contacts env.interactionName = []) :
    (receiveSms body st env).1 = Reply.noMatchingContact ∧
    (receiveSms body st env).2.2 = [] := by
  unfold receiveSms
  simp only [hfix, Bool.false_eq_true, if_false, hphrase, if_true]
  unfold handle_interaction_message
  simp [hname, hmatch]

/-- Witness for the amended C5: the counterexample scenario, reached through
the theorem. -/
theorem interaction_no_match_reports_failure_witness :
    (receiveSms "Spoke with Zed about the deal" ⟨none, none⟩
        ⟨none, "Zed", none, "", [], [], .ok, .ok⟩).1 = Reply.noMatchingContact ∧
    (receiveSms "Spoke with Zed about the deal" ⟨none, none⟩
        ⟨none, "Zed", none, "", [], [], .ok, .ok⟩).2.2 = [] :=
  interaction_no_match_reports_failure "Spoke with Zed about the deal"
    ⟨none, none⟩ ⟨none, "Zed", none, "", [], [], .ok, .ok⟩
    (by decide) (by decide) (by decide) (by decide)

/-! Claim C7 (`temporal`). -/

/-- C7: whenever a name fragment is fuzzily resolved against the contact
store and matches two or more contacts, the turn issues no insert, update or
delete — its effect list is empty — and the reply enumerates exactly the
matching contact names: for the delete and update actions of
`handle_contacts_change` (`contacts_change_agent.py` lines 35-39, 67-71) and
for `handle_interaction_message` (`interactions_agent.py` lines 84-89). -/
theorem ambiguous_resolution_never_mutates (d : ChangeData) (store : List Contact)
    (msg nm : String) (ins : InsertOutcome) :
    (pyLower d.action = "delete" → pyStrip d.name ≠ "" →
      2 ≤ (fuzzy_search_contacts store (pyStrip d.name)).length →
      handle_contacts_change d store =
        (Reply.multipleMatchesDelete (pyStrip d.name)
          ((fuzzy_search_contacts store (pyStrip d.name)).map (fun c => c.name)),
         [])) ∧
    (pyLower d.action = "update" → pyStrip d.name ≠ "" →
      2 ≤ (fuzzy_search_contacts store (pyStrip d.name)).length →
      handle_contacts_change d store =
        (Reply.multipleMatchesUpdate (pyStrip d.name)
          ((fuzzy_search_contacts store (pyStrip d.name)).map (fun c => c.name)),
         [])) ∧
    (nm ≠ "" → 2 ≤ (fuzzy_search_contacts store nm).length →
      handle_interaction_message msg nm store ins =
        (Reply.multipleContacts ((fuzzy_search_contacts store nm).map (fun c => c.name)),
         [])) := by
  refine ⟨fun ha hn hlen => ?_, fun ha hn hlen => ?_, fun hn hlen => ?_⟩
  · unfold handle_contacts_change
    rw [ha]
    match hm : fuzzy_search_contacts store (pyStrip d.name) with
    | [] => rw [hm] at hlen; simp at hlen
    | [c] => rw [hm] at hlen; simp at hlen
    | a :: b :: t => simp [hn, hm]
  · unfold handle_contacts_change
    rw [ha]
    match hm : fuzzy_search_contacts store (pyStrip d.name) with
    | [] => rw [hm] at hlen; simp at hlen
    | [c] => rw [hm] at hlen; simp at hlen
    | a :: b :: t => simp [hn, hm]
  · unfold handle_interaction_message
    match hm : fuzzy_search_contacts store nm with
    | [] => rw [hm] at hlen; simp at hlen
    | [c] => rw [hm] at hlen; simp at hlen
    | a :: b :: t => simp [hn, hm]

/-- Witness for C7: two stored contacts `Jon Lee` and `Jonathan Lee` both
match the fragment `Jon`; the delete action, the update action and the
interaction handler all refuse to act and list both names. -/
theorem ambiguous_resolution_never_mutates_witness :
    handle_contacts_change ⟨"delete", "Jon", "", "", "", "", ""⟩
        [⟨"u1", "Jon Lee"⟩, ⟨"u2", "Jonathan Lee"⟩] =
      (Reply.multipleMatchesDelete (pyStrip "Jon")
        ((fuzzy_search_contacts [⟨"u1", "Jon Lee"⟩, ⟨"u2", "Jonathan Lee"⟩]
          (pyStrip "Jon")).map (fun c => c.name)), []) ∧
    handle_interaction_message "Had lunch with Jon" "Jon"
        [⟨"u1", "Jon Lee"⟩, ⟨"u2", "Jonathan Lee"⟩] .ok =
      (Reply.multipleContacts
        ((fuzzy_search_contacts [⟨"u1", "Jon Lee"⟩, ⟨"u2", "Jonathan Lee"⟩]
          "Jon").map (fun c => c.name)), []) :=
  ⟨(ambiguous_resolution_never_mutates ⟨"delete", "Jon", "", "", "", "", ""⟩
      [⟨"u1", "Jon Lee"⟩, ⟨"u2", "Jonathan Lee"⟩] "Had lunch with Jon" "Jon" .ok).1
      (by decide) (by decide) (by decide),
   (ambiguous_resolution_never_mutates ⟨"delete", "Jon", "", "", "", "", ""⟩
      [⟨"u1", "Jon Lee"⟩, ⟨"u2", "Jonathan Lee"⟩] "Had lunch with Jon" "Jon" .ok).2.2
      (by decide) (by decide)⟩

/-! Claim C9 (`error_handling`). -/

/-- C9: in the query path, a plan whose contact name is truthy but resolves
to zero stored contacts makes the whole query fail with the "no contacts
found" reply, and no interactions select — filtered or unfiltered — is
executed (`interaction_query.py` lines 38-46: the early return precedes
`query_builder.execute()`). -/
theorem query_zero_candidates_runs_no_interaction_query (plan : QueryPlan)
    (store : List Contact) (rows : List InteractionRow) (nm : String)
    (h1 : plan.contact_name = some nm) (h2 : nm ≠ "")
    (h3 : fuzzy_search_contacts store nm = []) :
    handle_interaction_query (some plan) store rows =
      (Reply.noContactsFound nm, []) := by
  unfold handle_interaction_query
  simp [h1, pyTruthy, h2, h3]

/-- Witness for C9, the spec's scenario D: a "last 3 with Xander" plan over
a store that knows no Xander. -/
theorem query_zero_candidates_runs_no_interaction_query_witness :
    handle_interaction_query
        (some ⟨some "Xander", none, none, some 3, some "desc"⟩)
        [⟨"u1", "Jon Lee"⟩, ⟨"u2", "Jane Roe"⟩]
        [⟨"note", "2024-01-01T00:00:00Z", "u1"⟩] =
      (Reply.noContactsFound "Xander", []) :=
  query_zero_candidates_runs_no_interaction_query
    ⟨some "Xander", none, none, some 3, some "desc"⟩
    [⟨"u1", "Jon Lee"⟩, ⟨"u2", "Jane Roe"⟩]
    [⟨"note", "2024-01-01T00:00:00Z", "u1"⟩] "Xander"
    rfl (by decide) (by decide)

/-! Claim C10 (`functional_correctness`). -/

/-- C10: in the interaction-logging handler wired into the SMS entry point,
when the extracted name resolves to exactly one contact, the inserted
interaction's note is the entire inbound message (after the entry point's
whitespace strip), not merely the extracted note portion —
`interactions_agent.py` lines 75-78 build `{"contact_id": ..., "note":
message}` from the full message `receive_sms` passed in (`main.py`
line 198). -/
theorem interaction_note_is_whole_message (body : String) (st : SmsState)
    (env : TurnEnv) (c : Contact)
    (hfix : pyStartsWith "FIX:" (fixPrefixOf (pyStrip body)) = false)
    (hphrase : hasInteractionPhrase (pyStrip body) = true)
    (hname : env.interactionName ≠ "")
    (hmatch : fuzzy_search_contacts env.contacts env.interactionName = [c]) :
    (receiveSms body st env).2.2 = [Effect.insertInteraction c.uuid (pyStrip body)] := by
  unfold receiveSms
  simp only [hfix, Bool.false_eq_true, if_false, hphrase, if_true]
  unfold handle_interaction_message
  simp only [hname, if_neg, hmatch]
  cases env.interactionInsert <;> simp [hname]

/-- Witness for C10: logging `Had coffee with Jane Roe, she got promoted`
against a store holding exactly one Jane inserts that whole sentence as the
note. -/
theorem interaction_note_is_whole_message_witness :
    (receiveSms "Had coffee with Jane Roe, she got promoted" ⟨none, none⟩
        ⟨none, "Jane Roe", none, "", [⟨"u7", "Jane Roe"⟩], [], .ok, .ok⟩).2.2 =
      [Effect.insertInteraction "u7"
        (pyStrip "Had coffee with Jane Roe, she got promoted")] :=
  interaction_note_is_whole_message "Had coffee with Jane Roe, she got promoted"
    ⟨none, none⟩ ⟨none, "Jane Roe", none, "", [⟨"u7", "Jane Roe"⟩], [], .ok, .ok⟩
    ⟨"u7", "Jane Roe"⟩ (by decide) (by decide) (by decide) (by decide)

/-! Claim C4 (`error_handling`). -/

/-- Counterexample to C4: an override naming the unknown label `BANANA`
while a classification is remembered *does* append an audit record (the
`store_classification_outcome` call at `main.py` lines 136-140 precedes the
label validation) and *does* clear the remembered classification
(`main.py` line 161), even though the reply is the help message. -/
theorem invalid_fix_counterexample :
    receiveSms "FIX: BANANA" ⟨none, some ⟨"query", "show me my last 3 calls"⟩⟩
        ⟨none, "", none, "", [], [], .ok, .ok⟩ =
      (Reply.unknownFixType, ⟨none, none⟩,
       [Effect.storeClassification "show me my last 3 calls" "query" "banana"]) := by
  decide

/-- C4 as amended: an override-correction message naming a label outside the
closed set `{query, interaction, contact}` is answered with the help
message and never touches the conversation (contact) state; but when a
classification is remembered, one audit record pairing the original message
and label with the invalid target is still appended and the remembered
classification is cleared — only when no classification is remembered are no
record written and no state changed (`main.py` lines 126-161). -/
theorem invalid_fix_behavior (body : String) (st : SmsState) (env : TurnEnv)
    (cd : ClassEntry)
    (hfix : pyStartsWith "FIX:" (fixPrefixOf (pyStrip body)) = true)
    (hq : fixLabelOf (pyStrip body) ≠ "query")
    (hi : fixLabelOf (pyStrip body) ≠ "interaction")
    (hc : fixLabelOf (pyStrip body) ≠ "contact") :
    (st.classState = some cd →
      receiveSms body st env =
        (Reply.unknownFixType, ⟨st.contactState, none⟩,
         [Effect.storeClassification cd.original_message cd.original_label
            (fixLabelOf (pyStrip body))])) ∧
    (st.classState = none →
      receiveSms body st env = (Reply.noPrevClassification, st, [])) := by
  constructor
  · intro hcs
    unfold receiveSms
    rw [hcs]
    simp [hfix, hq, hi, hc]
  · intro hcs
    unfold receiveSms
    rw [hcs]
    simp [hfix]

/-- Witness for the amended C4: the `FIX: BANANA` scenario, reached through
the theorem. -/
theorem invalid_fix_behavior_witness :
    receiveSms "FIX: BANANA" ⟨none, some ⟨"query", "show me my last 3 calls"⟩⟩
        ⟨none, "", none, "", [], [], .ok, .ok⟩ =
      (Reply.unknownFixType, ⟨none, none⟩,
       [Effect.storeClassification "show me my last 3 calls" "query"
          (fixLabelOf (pyStrip "FIX: BANANA"))]) :=
  (invalid_fix_behavior "FIX: BANANA" ⟨none, some ⟨"query", "show me my last 3 calls"⟩⟩
      ⟨none, "", none, "", [], [], .ok, .ok⟩ ⟨"query", "show me my last 3 calls"⟩
      (by decide) (by decide) (by decide) (by decide)).1 rfl

/-! Claim C1 (`invariants`). -/

/-- Counterexample to C1: a two-turn flow in which the second turn still
leaves four required fields absent nevertheless transitions to
`awaiting_confirmation` — `parse_message` asks for confirmation on *any*
follow-up turn with a non-empty partial record, without re-checking
completeness (`text_parser.py` lines 161-171).  Turn 1 supplies only the
name, turn 2 only the phone; the resulting state is `awaiting_confirmation`
although email, birthday, family members and description are still absent. -/
theorem collecting_fields_counterexample :
    (receiveSms "her phone is 5551234567"
        (receiveSms "add a contact for Ann" ⟨none, none⟩
          ⟨some ⟨some "Ann", none, none, none, none, none⟩, "", none, "", [], [],
            .ok, .ok⟩).2.1
        ⟨some ⟨none, some "+15551234567", none, none, none, none⟩, "", none, "",
          [], [], .ok, .ok⟩).2.1.contactState =
      some ⟨ConvPhase.awaiting_confirmation,
        ⟨some "Ann", some "+15551234567", none, none, none, none⟩⟩ ∧
    requiredPresent ⟨some "Ann", some "+15551234567", none, none, none, none⟩ =
      false ∧
    missingLabels ⟨some "Ann", some "+15551234567", none, none, none, none⟩ ≠
      [] := by
  decide

/-- C1 as amended: on a turn whose existing partial record is empty (a fresh
sender, or one for whom nothing was ever extracted), the machine moves to
`awaiting_confirmation` exactly when all six required fields are non-absent
in the merged record, and otherwise stays in `awaiting_fields` with a reply
listing exactly the missing fields; but on a follow-up turn whose existing
partial record is non-empty, the machine moves to `awaiting_confirmation`
unconditionally, whatever fields are still missing
(`text_parser.py` lines 129-193, `main.py` lines 246-258). -/
theorem collecting_fields_transition (msg : String) (extr : Option ContactRecord)
    (data : ContactRecord) (ins : InsertOutcome) :
    (missingLabels (parse_message extr data).contact_data = [] ↔
      requiredPresent (parse_message extr data).contact_data = true) ∧
    ((contactTurn msg extr (some ⟨ConvPhase.awaiting_fields, data⟩) ins).2.1.map
        StateEntry.phase = some ConvPhase.awaiting_confirmation ↔
      (dictNonEmpty data = true ∨
        missingLabels (parse_message extr data).contact_data = [])) ∧
    (dictNonEmpty data = false →
      missingLabels (parse_message extr data).contact_data ≠ [] →
      (contactTurn msg extr (some ⟨ConvPhase.awaiting_fields, data⟩) ins).1 =
        Reply.missingInfo (missingLabels (parse_message extr data).contact_data)) ∧
    ((contactTurn msg extr none ins).2.1.map StateEntry.phase =
        some ConvPhase.awaiting_confirmation ↔
      missingLabels (parse_message extr emptyRecord).contact_data = []) ∧
    (missingLabels (parse_message extr emptyRecord).contact_data ≠ [] →
      (contactTurn msg extr none ins).1 =
        Reply.missingInfo (missingLabels (parse_message extr emptyRecord).contact_data)) := by
  have hstat : ∀ d : ContactRecord,
      ((parse_message extr d).status = ParseStatus.needs_confirmation ↔
        (dictNonEmpty d = true ∨ missingLabels (parse_message extr d).contact_data = [])) ∧
      (dictNonEmpty d = false →
        missingLabels (parse_message extr d).contact_data ≠ [] →
        (parse_message extr d).reply =
          Reply.missingInfo (missingLabels (parse_message extr d).contact_data)) := by
    intro d
    unfold parse_message
    cases extr with
    | none =>
      by_cases h1 : dictNonEmpty d
      · simp [h1]
      · by_cases h2 : missingLabels d = [] <;>
          simp [h1, h2]
    | some nd =>
      by_cases h1 : dictNonEmpty d
      · simp [h1]
      · by_cases h2 : missingLabels (mergeRecord d nd) = [] <;>
          simp [h1, h2]
  have hempty : dictNonEmpty emptyRecord = false := by decide
  refine ⟨missingLabels_eq_nil_iff _, ?_, ?_, ?_, ?_⟩
  · unfold contactTurn followUpTurn
    simp only [reduceCtorEq, if_false]
    by_cases hs : (parse_message extr data).status = ParseStatus.needs_confirmation
    · simp only [hs, if_true, Option.map_some, reduceIte]
      exact ⟨fun _ => ((hstat data).1).mp hs, fun _ => rfl⟩
    · simp only [hs, if_false, Option.map_some, reduceIte]
      constructor
      · intro h
        simp at h
      · intro h
        exact absurd (((hstat data).1).mpr h) hs
  · intro h1 h2
    unfold contactTurn followUpTurn
    simp only [reduceCtorEq, if_false]
    exact (hstat data).2 h1 h2
  · unfold contactTurn followUpTurn
    by_cases hs : (parse_message extr emptyRecord).status = ParseStatus.needs_confirmation
    · simp only [hs, if_true, Option.map_some, reduceIte]
      have := ((hstat emptyRecord).1).mp hs
      rw [hempty] at this
      simp only [Bool.false_eq_true, false_or] at this
      exact ⟨fun _ => this, fun _ => rfl⟩
    · simp only [hs, if_false, Option.map_some, reduceIte]
      constructor
      · intro h
        simp at h
      · intro h
        exact absurd (((hstat emptyRecord).1).mpr (Or.inr h)) hs
  · intro h
    unfold contactTurn followUpTurn
    exact (hstat emptyRecord).2 hempty h

/-- Witness for the amended C1: a first turn extracting only the name stays
in `awaiting_fields` and lists the five other labels; a follow-up turn over
that non-empty record reaches `awaiting_confirmation` although fields are
still missing. -/
theorem collecting_fields_transition_witness :
    (contactTurn "add Ann" (some ⟨some "Ann", none, none, none, none, none⟩)
        none .ok).1 =
      Reply.missingInfo (missingLabels
        (parse_message (some ⟨some "Ann", none, none, none, none, none⟩)
          emptyRecord).contact_data) ∧
    ((contactTurn "her phone is 5551234567"
        (some ⟨none, some "+15551234567", none, none, none, none⟩)
        (some ⟨ConvPhase.awaiting_fields, ⟨some "Ann", none, none, none, none, none⟩⟩)
        .ok).2.1.map StateEntry.phase = some ConvPhase.awaiting_confirmation) :=
  ⟨(collecting_fields_transition "add Ann"
      (some ⟨some "Ann", none, none, none, none, none⟩) emptyRecord .ok).2.2.2.2
      (by decide),
   ((collecting_fields_transition "her phone is 5551234567"
      (some ⟨none, some "+15551234567", none, none, none, none⟩)
      ⟨some "Ann", none, none, none, none, none⟩ .ok).2.1).mpr
      (Or.inl (by decide))⟩

/-! Claim C2 (`functional_correctness`). -/

/-- Unfolding helper: `String.mk` then `String.toList` is the identity. -/
lemma toList_mk (l : List Char) : (String.mk l).toList = l := rfl

/-- Dropping a prefix never lengthens a list. -/
lemma length_dropWhile_le (p : Char → Bool) (l : List Char) :
    (l.dropWhile p).length ≤ l.length := by
  induction l with
  | nil => simp
  | cons c t ih =>
    rw [List.dropWhile_cons]
    by_cases h : p c
    · simp only [h, if_true]
      exact le_trans ih (by simp)
    · simp [h]

/-- Stripping whitespace never lengthens a character list. -/
lemma stripChars_length_le (l : List Char) : (stripChars l).length ≤ l.length := by
  unfold stripChars
  have h1 := length_dropWhile_le (Char.isWhitespace) l
  have h2 := length_dropWhile_le (Char.isWhitespace)
    (l.dropWhile Char.isWhitespace).reverse
  simp only [List.length_reverse] at *
  omega

/-- A list shorter than four characters cannot start with `FIX:`. -/
lemma pyStartsWith_fix_false_of_short {l : List Char} (h : l.length < 4) :
    pyStartsWith "FIX:" (String.mk l) = false := by
  unfold pyStartsWith
  rcases l with _ | ⟨a, _ | ⟨b, _ | ⟨c, _ | ⟨d, t⟩⟩⟩⟩
  · rfl
  · simp [List.isPrefixOf]
  · simp [List.isPrefixOf]
  · simp [List.isPrefixOf]
  · simp at h
    omega

/-- A confirmation token (any casing of `yes`, `y`, `no` or `n`) is at most
three characters long once stripped, so the stripped uppercased message can
never start with the override prefix `FIX:`. -/
lemma fix_guard_false_of_token {body : String} {t : String}
    (ht : t.toList.length ≤ 3) (h : pyLower (pyStrip body) = t) :
    pyStartsWith "FIX:" (fixPrefixOf (pyStrip body)) = false := by
  have hlist : ((pyStrip body).toList.map Char.toLower) = t.toList := by
    have := congrArg String.toList h
    rwa [pyLower, toList_mk] at this
  have hlen : (pyStrip body).toList.length ≤ 3 := by
    have := congrArg List.length hlist
    rw [List.length_map] at this
    omega
  have hshort : (stripChars ((pyStrip body).toList.map Char.toUpper)).length < 4 := by
    have h1 := stripChars_length_le ((pyStrip body).toList.map Char.toUpper)
    rw [List.length_map] at h1
    omega
  show pyStartsWith "FIX:" (pyStrip (pyUpper (pyStrip body))) = false
  rw [pyUpper, pyStrip, toList_mk]
  exact pyStartsWith_fix_false_of_short hshort

/-- C2: for a sender whose conversation state is `awaiting_confirmation`,
once the turn reaches the contact branch (which for these short tokens is
forced: the stripped message cannot carry the `FIX:` prefix, contains no
interaction phrase, matches no fallback query keyword, and
`classify_for_query` in `main.py` returns `False` for every input because
`json` is never imported there), an affirmative token — any casing of `yes`
or `y` — issues exactly one contact-store insert carrying the then-current
merged record and removes the sender's conversation state, while a negative
token — any casing of `no` or `n` — issues no store call and removes the
conversation state (`main.py` lines 221-232). -/
theorem confirmation_commit (body : String) (st : SmsState) (env : TurnEnv)
    (cd : ContactRecord)
    (hst : st.contactState = some ⟨ConvPhase.awaiting_confirmation, cd⟩) :
    ((pyLower (pyStrip body) = "yes" ∨ pyLower (pyStrip body) = "y") →
      (receiveSms body st env).2.2 = [Effect.insertContact cd] ∧
      (receiveSms body st env).2.1.contactState = none) ∧
    ((pyLower (pyStrip body) = "no" ∨ pyLower (pyStrip body) = "n") →
      (receiveSms body st env).2.2 = [] ∧
      (receiveSms body st env).2.1.contactState = none) := by
  constructor
  all_goals
    intro h4
    have hfix : pyStartsWith "FIX:" (fixPrefixOf (pyStrip body)) = false := by
      rcases h4 with h | h
      · exact fix_guard_false_of_token (by decide) h
      · exact fix_guard_false_of_token (by decide) h
    have hphr : hasInteractionPhrase (pyStrip body) = false := by
      unfold hasInteractionPhrase
      rcases h4 with h | h <;> rw [h] <;> decide
    have hfall : fallback_query_keywords (pyStrip body) = false := by
      unfold fallback_query_keywords
      rcases h4 with h | h <;> rw [h] <;> decide
    have hcls : classify_for_query env.classifierRaw = false := rfl
    unfold receiveSms contactTurn
    rw [hst]
    rcases h4 with h | h <;>
      cases env.contactInsert <;>
        simp [hfix, hphr, hfall, hcls, h]
  
/-- Witness for C2: with a complete pending record awaiting confirmation,
the literal token `yes` inserts exactly that record and clears the state,
and the literal token `n` clears the state with no store call. -/
theorem confirmation_commit_witness :
    ((receiveSms "yes"
        ⟨some ⟨ConvPhase.awaiting_confirmation,
          ⟨some "Jane Roe", some "+15551234567", some "jane@x.com",
            some "1990-04-02", some "no family", some "works at Acme"⟩⟩, none⟩
        ⟨none, "", none, "", [], [], .ok, .ok⟩).2.2 =
      [Effect.insertContact
        ⟨some "Jane Roe", some "+15551234567", some "jane@x.com",
          some "1990-04-02", some "no family", some "works at Acme"⟩] ∧
     (receiveSms "yes"
        ⟨some ⟨ConvPhase.awaiting_confirmation,
          ⟨some "Jane Roe", some "+15551234567", some "jane@x.com",
            some "1990-04-02", some "no family", some "works at Acme"⟩⟩, none⟩
        ⟨none, "", none, "", [], [], .ok, .ok⟩).2.1.contactState = none) ∧
    ((receiveSms "n"
        ⟨some ⟨ConvPhase.awaiting_confirmation,
          ⟨some "Jane Roe", some "+15551234567", some "jane@x.com",
            some "1990-04-02", some "no family", some "works at Acme"⟩⟩, none⟩
        ⟨none, "", none, "", [], [], .ok, .ok⟩).2.2 = [] ∧
     (receiveSms "n"
        ⟨some ⟨ConvPhase.awaiting_confirmation,
          ⟨some "Jane Roe", some "+15551234567", some "jane@x.com",
            some "1990-04-02", some "no family", some "works at Acme"⟩⟩, none⟩
        ⟨none, "", none, "", [], [], .ok, .ok⟩).2.1.contactState = none) :=
  ⟨(confirmation_commit "yes"
      ⟨some ⟨ConvPhase.awaiting_confirmation,
        ⟨some "Jane Roe", some "+15551234567", some "jane@x.com",
          some "1990-04-02", some "no family", some "works at Acme"⟩⟩, none⟩
      ⟨none, "", none, "", [], [], .ok, .ok⟩
      ⟨some "Jane Roe", some "+15551234567", some "jane@x.com",
        some "1990-04-02", some "no family", some "works at Acme"⟩ rfl).1
      (Or.inl (by decide)),
   (confirmation_commit "n"
      ⟨some ⟨ConvPhase.awaiting_confirmation,
        ⟨some "Jane Roe", some "+15551234567", some "jane@x.com",
          some "1990-04-02", some "no family", some "works at Acme"⟩⟩, none⟩
      ⟨none, "", none, "", [], [], .ok, .ok⟩
      ⟨some "Jane Roe", some "+15551234567", some "jane@x.com",
        some "1990-04-02", some "no family", some "works at Acme"⟩ rfl).2
      (Or.inr (by decide))⟩

end Crm
